import Mathlib

/-
Verification of the authentication / authorization core of the
ai-python-story-gen backend, shallowly embedded from the Python sources:
  app/core/security.py, app/services/auth.py, app/api/deps.py,
  app/services/story.py, app/services/story_universe.py,
  app/services/user.py, app/api/v1/users.py, and the repository layer.
Stores are embedded as lists of records; each service operation is a pure
function from the store (plus request data) to a tagged result, mirroring
the HTTP-exception-based control flow of the code.
-/

set_option autoImplicit false

namespace App

/-! ## Credential hasher (app/core/security.py, backed by the argon2 hasher)

The hasher is the third-party argon2 algorithm behind pwdlib.  A digest is
modelled structurally: a well-formed argon2 digest determines the salt that
was drawn at hashing time together with the password it commits to (argon2
is treated as collision-free, its defining contract); any other string is a
digest the argon2 hasher does not recognise. -/

inductive Digest where
  | argon2 (salt : Nat) (committed : String)
  | malformed (s : String)
deriving DecidableEq, Repr

/-- Embeds `get_password_hash` (app/core/security.py line 20): hashes with argon2
under a freshly drawn salt; the salt is made an explicit parameter of the
embedding. -/
def get_password_hash (salt : Nat) (password : String) : Digest :=
  .argon2 salt password

/-- Embeds `verify_password` (app/core/security.py line 15) on a well-formed
argon2 digest: recomputes with the recorded salt and compares.  The
behaviour on digests the backend does not identify is decided inside the
pwdlib dependency (not part of this repository) and is not settled here;
the `malformed` branch records the outcome the spec ascribes to it. -/
def verify_password (plain_password : String) (hashed_password : Digest) : Bool :=
  match hashed_password with
  | .argon2 _ committed => plain_password == committed
  | .malformed _ => false

/-! ## Token codec (app/core/security.py, backed by jose jwt)

The `sub` claim is consumed by the services only through the Python
conversion `int(sub)`, so its string value is embedded by that behaviour:
`num i` stands for a decimal string that `int()` converts to `i`
(in particular `str(user.id)` is `num user.id`), `nonNum s` for a string on
which `int()` raises `ValueError`.  A token string either carries a valid
signature over a claims payload or it does not; jose rejects a signed token
whose `exp` claim lies in the past. -/

inductive SubClaim where
  | num (i : Int)
  | nonNum (s : String)
deriving DecidableEq, Repr

/-- Python `int(sub)` on the embedded subject string: an integer on a
decimal string, an uncaught `ValueError` (here `none`) otherwise. -/
def pyInt : SubClaim → Option Int
  | .num i => some i
  | .nonNum _ => none

structure Payload where
  sub : Option SubClaim
  type : Option String
  exp : Option Int
deriving DecidableEq, Repr

inductive TokenStr where
  | signed (p : Payload)
  | garbage (s : String)
deriving DecidableEq, Repr

/-- Embeds `decode_token` (app/core/security.py line 45): jose verifies the
signature and the `exp` claim; every jose failure is caught as `JWTError`
and collapsed to `None`.  `now` is the clock reading at the decode call. -/
def decode_token (now : Int) : TokenStr → Option Payload
  | .garbage _ => none
  | .signed p =>
    match p.exp with
    | some e => if e < now then none else some p
    | none => some p

/-- Embeds `create_access_token` (app/core/security.py line 25): signs the caller
data plus `exp = now + ttl` and `type = "access"`. -/
def create_access_token (sub : SubClaim) (now ttl : Int) : TokenStr :=
  .signed { sub := some sub, type := some "access", exp := some (now + ttl) }

/-- Embeds `create_refresh_token` (app/core/security.py line 35): signs the caller
data plus `exp = now + ttl` and `type = "refresh"`. -/
def create_refresh_token (sub : SubClaim) (now ttl : Int) : TokenStr :=
  .signed { sub := some sub, type := some "refresh", exp := some (now + ttl) }

/-! ## Identity store (app/models/user.py, app/repositories/user.py)

A user record, with the columns of the `User` model.  The store is a list
of records; `find?` mirrors the single-row SQL lookups.

Modelled from the spec: the file src/app/models/user.py (the SQLAlchemy
`User` model) is absent from the sources, so the email column semantics and
the registration defaults come from the spec — `email (unique,
case-insensitive)` gives a case-insensitive collation for email equality
(`emailKey` below), and registration creates an active, non-admin user. -/

structure User where
  id : Int
  email : String
  hashed_password : Digest
  full_name : Option String
  is_active : Bool
  is_admin : Bool
deriving DecidableEq, Repr

/-- ASCII lowercasing of one character. -/
def lowerChar (c : Char) : Char :=
  if 65 ≤ c.toNat && c.toNat ≤ 90 then Char.ofNat (c.toNat + 32) else c

/-- Modelled from the spec: the case-insensitive collation key under which
the email column is compared, standing in for the column type declared in
the missing src/app/models/user.py. -/
def emailKey (e : String) : String :=
  ⟨e.data.map lowerChar⟩

namespace UserRepository

/-- Embeds `UserRepository.get_by_id` (app/repositories/user.py line 15). -/
def get_by_id (store : List User) (user_id : Int) : Option User :=
  store.find? (fun u => u.id == user_id)

/-- Embeds `UserRepository.get_by_email` (app/repositories/user.py line 20):
`User.email == email` under the email column collation. -/
def get_by_email (store : List User) (email : String) : Option User :=
  store.find? (fun u => emailKey u.email == emailKey email)

end UserRepository

/-! ## Auth service (app/services/auth.py) -/

structure TokenPair where
  access_token : TokenStr
  refresh_token : TokenStr
deriving DecidableEq, Repr

namespace AuthService

/-- Embeds `AuthService.authenticate_user` (app/services/auth.py line 21): lookup
by email, then password check; both failures collapse to `none`. -/
def authenticate_user (store : List User) (email password : String) : Option User :=
  match UserRepository.get_by_email store email with
  | none => none
  | some user =>
    if !verify_password password user.hashed_password then none
    else some user

/-- Embeds `AuthService.create_tokens` (app/services/auth.py line 30): one access
and one refresh token, both with `sub = str(user.id)`. -/
def create_tokens (user : User) (now accessTtl refreshTtl : Int) : TokenPair :=
  { access_token := create_access_token (.num user.id) now accessTtl
    refresh_token := create_refresh_token (.num user.id) now refreshTtl }

/-- Outcome of `refresh_access_token`: the tagged failures it raises, the
returned pair, or an exception that is neither (`pythonError`, the uncaught
`ValueError` of `int(user_id)` on a non-decimal subject string). -/
inductive RefreshResult where
  | ok (t : TokenPair)
  | unauthorized (msg : String)
  | badRequest (msg : String)
  | pythonError
deriving DecidableEq, Repr

/-- Embeds `AuthService.refresh_access_token` (app/services/auth.py line 36),
step for step: decode, type check, subject presence, `int(user_id)` (not
wrapped in any handler), user lookup, active check, fresh pair. -/
def refresh_access_token (store : List User) (now accessTtl refreshTtl : Int)
    (refresh_token : TokenStr) : RefreshResult :=
  match decode_token now refresh_token with
  | none => .unauthorized "Invalid refresh token"
  | some payload =>
    if payload.type != some "refresh" then .badRequest "Invalid token type"
    else
      match payload.sub with
      | none => .unauthorized "Invalid refresh token"
      | some sub =>
        match pyInt sub with
        | none => .pythonError
        | some user_id =>
          match UserRepository.get_by_id store user_id with
          | none => .unauthorized "User not found"
          | some user =>
            if !user.is_active then .unauthorized "User is inactive"
            else .ok (create_tokens user now accessTtl refreshTtl)

end AuthService

/-! ## Authorization gate (app/api/deps.py) -/

inductive GateResult where
  | ok (u : User)
  | unauthorized (msg : String)
  | forbidden (msg : String)
deriving DecidableEq, Repr

/-- Embeds `get_current_user` (app/api/deps.py line 42).  A missing bearer token
is rejected by the `OAuth2PasswordBearer` dependency before the function
runs (401 "Not authenticated").  The `int(user_id)` conversion and the
`UserService.get_by_id` lookup (which raises `NotFoundError` on a missing
user) sit inside a catch-all `except Exception` that converts any failure
into the generic credentials exception. -/
def get_current_user (store : List User) (now : Int) (token : Option TokenStr) :
    GateResult :=
  match token with
  | none => .unauthorized "Not authenticated"
  | some t =>
    match decode_token now t with
    | none => .unauthorized "Could not validate credentials"
    | some payload =>
      if payload.type != some "access" then
        .unauthorized "Could not validate credentials"
      else
        match payload.sub with
        | none => .unauthorized "Could not validate credentials"
        | some sub =>
          match pyInt sub with
          | none => .unauthorized "Could not validate credentials"
          | some user_id =>
            match UserRepository.get_by_id store user_id with
            | none => .unauthorized "Could not validate credentials"
            | some user => .ok user

/-- Embeds `get_current_active_user` (app/api/deps.py line 72). -/
def get_current_active_user (store : List User) (now : Int)
    (token : Option TokenStr) : GateResult :=
  match get_current_user store now token with
  | .ok user => if !user.is_active then .unauthorized "Inactive user" else .ok user
  | r => r

/-- Embeds `get_current_admin_user` (app/api/deps.py line 81). -/
def get_current_admin_user (store : List User) (now : Int)
    (token : Option TokenStr) : GateResult :=
  match get_current_active_user store now token with
  | .ok user =>
    if !user.is_admin then .forbidden "Admin privileges required" else .ok user
  | r => r

/-! ## Owned resources (app/models/story.py, app/models/story_universe.py)

A pydantic update schema field is embedded with its presence information:
`unset` for a field omitted from the payload (dropped by
`model_dump(exclude_unset=True)`), `set v` for a field present with value
`v`, where `set none` is an explicit JSON null. -/

inductive Upd (α : Type) where
  | unset
  | set (v : Option α)
deriving DecidableEq, Repr

/-- The repository update loop (`for field, value in update_data.items():
if value is not None: setattr(...)`) on a non-nullable column: an omitted
field and an explicit null both leave the old value. -/
def applyUpd {α : Type} (old : α) (f : Upd α) : α :=
  match f with
  | .unset => old
  | .set none => old
  | .set (some v) => v

/-- The same repository update loop on a nullable column. -/
def applyUpdOpt {α : Type} (old : Option α) (f : Upd α) : Option α :=
  match f with
  | .unset => old
  | .set none => old
  | .set (some v) => some v

structure StoryUniverse where
  id : Int
  user_id : Int
  name : String
  description : Option String
deriving DecidableEq, Repr

structure Story where
  id : Int
  user_id : Int
  story_universe_id : Int
  title : String
  content : Option String
  image_urls : Option (List String)
deriving DecidableEq, Repr

/-- Embeds `StoryCreate` (app/schemas/story.py line 8). -/
structure StoryCreate where
  story_universe_id : Int
  title : String
  content : Option String
  image_urls : Option (List String)
deriving DecidableEq, Repr

/-- Embeds `StoryUpdate` (app/schemas/story.py line 17). -/
structure StoryUpdate where
  title : Upd String
  content : Upd String
  image_urls : Upd (List String)
deriving DecidableEq, Repr

/-- The empty update payload `{}`: every field unset. -/
def emptyStoryUpdate : StoryUpdate :=
  { title := .unset, content := .unset, image_urls := .unset }

namespace StoryRepository

/-- Embeds `StoryRepository.get_by_user_and_id` (app/repositories/story.py
line 22): row matching both the story id and the owning user id. -/
def get_by_user_and_id (stories : List Story) (user_id story_id : Int) :
    Option Story :=
  stories.find? (fun s => s.id == story_id && s.user_id == user_id)

/-- Embeds `StoryRepository.update` (app/repositories/story.py line 57): sets
each field of `update_data` whose value is not `None`; the service built
`update_data` with `exclude_unset=True`, so unset fields are absent. -/
def update (story : Story) (data : StoryUpdate) : Story :=
  { story with
    title := applyUpd story.title data.title
    content := applyUpdOpt story.content data.content
    image_urls := applyUpdOpt story.image_urls data.image_urls }

end StoryRepository

namespace StoryUniverseRepository

/-- Embeds `StoryUniverseRepository.get_by_user_and_id`
(app/repositories/story_universe.py). -/
def get_by_user_and_id (universes : List StoryUniverse)
    (user_id universe_id : Int) : Option StoryUniverse :=
  universes.find? (fun g => g.id == universe_id && g.user_id == user_id)

end StoryUniverseRepository

/-- Result of a resource service call: the value, or the `NotFoundError`
the service raises (these services raise no other exception kind). -/
inductive SvcResult (α : Type) where
  | ok (a : α)
  | notFound (msg : String)
deriving DecidableEq, Repr

/-- The `NotFoundError` detail of `StoryService.get_by_id`. -/
def storyNotFoundMsg (story_id : Int) : String :=
  "Story with id " ++ toString story_id ++ " not found"

/-- The `NotFoundError` detail raised for a missing story universe. -/
def universeNotFoundMsg (universe_id : Int) : String :=
  "Story universe with id " ++ toString universe_id ++ " not found"

namespace StoryService

/-- Embeds `StoryService.get_by_id` (app/services/story.py line 21). -/
def get_by_id (stories : List Story) (user_id story_id : Int) :
    SvcResult Story :=
  match StoryRepository.get_by_user_and_id stories user_id story_id with
  | none => .notFound (storyNotFoundMsg story_id)
  | some story => .ok story

/-- Embeds `StoryService.create` (app/services/story.py line 48): validates the
referenced universe under the caller ownership, then inserts a record
stamped with the caller id (`newId` is the id the store assigns). -/
def create (universes : List StoryUniverse) (user_id : Int)
    (data : StoryCreate) (newId : Int) : SvcResult Story :=
  match StoryUniverseRepository.get_by_user_and_id universes user_id
      data.story_universe_id with
  | none => .notFound (universeNotFoundMsg data.story_universe_id)
  | some _ =>
    .ok { id := newId, user_id := user_id
          story_universe_id := data.story_universe_id
          title := data.title, content := data.content
          image_urls := data.image_urls }

/-- Embeds `StoryService.update` (app/services/story.py line 68): reuses
`get_by_id`, then applies the filtered payload via the repository. -/
def update (stories : List Story) (user_id story_id : Int)
    (data : StoryUpdate) : SvcResult Story :=
  match get_by_id stories user_id story_id with
  | .notFound msg => .notFound msg
  | .ok story => .ok (StoryRepository.update story data)

/-- Embeds `StoryService.delete` (app/services/story.py line 76): reuses
`get_by_id`, then removes the found record (its removal from the store is
a store-level effect; the result records which row is removed). -/
def delete (stories : List Story) (user_id story_id : Int) :
    SvcResult Story :=
  match get_by_id stories user_id story_id with
  | .notFound msg => .notFound msg
  | .ok story => .ok story

end StoryService

namespace StoryUniverseService

/-- Embeds `StoryUniverseService.get_by_id` (app/services/story_universe.py
line 15). -/
def get_by_id (universes : List StoryUniverse) (user_id universe_id : Int) :
    SvcResult StoryUniverse :=
  match StoryUniverseRepository.get_by_user_and_id universes user_id
      universe_id with
  | none => .notFound (universeNotFoundMsg universe_id)
  | some g => .ok g

end StoryUniverseService

/-! ## User service (app/services/user.py, app/api/v1/users.py) -/

/-- Embeds `UserCreate` (app/schemas/user.py line 15). -/
structure UserCreate where
  email : String
  password : String
  full_name : Option String
deriving DecidableEq, Repr

/-- Embeds `UserUpdate` (app/schemas/user.py line 23). -/
structure UserUpdate where
  email : Upd String
  password : Upd String
  full_name : Upd String
  is_active : Upd Bool
deriving DecidableEq, Repr

/-- Embeds `UserAdminUpdate` (app/schemas/user.py line 34): `UserUpdate` plus the
admin flag. -/
structure UserAdminUpdate where
  email : Upd String
  password : Upd String
  full_name : Upd String
  is_active : Upd Bool
  is_admin : Upd Bool
deriving DecidableEq, Repr

/-- The ORM session mutates the one fetched row; on the list store this is
replacement of the first record carrying the id. -/
def setUser : List User → Int → User → List User
  | [], _, _ => []
  | v :: rest, user_id, u =>
    if v.id == user_id then u :: rest else v :: setUser rest user_id u

/-- Embeds `session.delete` of the one fetched row: removal of the first record
carrying the id. -/
def removeUser : List User → Int → List User
  | [], _ => []
  | v :: rest, user_id =>
    if v.id == user_id then rest else v :: removeUser rest user_id

/-- Outcome of a user service call: the resulting record together with the
store after the mutation, one of the tagged HTTP errors the service
raises, or an untagged exception (`pythonError`: `get_password_hash(None)`
raises `TypeError` when the payload carries an explicit null password). -/
inductive UserResult where
  | ok (u : User) (store : List User)
  | notFound (msg : String)
  | conflict (msg : String)
  | pythonError
deriving DecidableEq, Repr

/-- The `NotFoundError` detail of `UserService.get_by_id`. -/
def userNotFoundMsg (user_id : Int) : String :=
  "User with id " ++ toString user_id ++ " not found"

/-- The `ConflictError` detail for a duplicate email. -/
def emailConflictMsg (email : String) : String :=
  "User with email " ++ email ++ " already exists"

namespace UserService

/-- Embeds `UserService.create_user` (app/services/user.py line 31): email
conflict lookup, then insertion of a record with the hashed password.
`newId` is the id the store assigns, `salt` the hashing salt drawn for the
call; the active and admin defaults of the missing model file are the
registration defaults the spec states. -/
def create_user (store : List User) (user_in : UserCreate)
    (salt : Nat) (newId : Int) : UserResult :=
  if (UserRepository.get_by_email store user_in.email).isSome then
    .conflict (emailConflictMsg user_in.email)
  else
    let u : User :=
      { id := newId, email := user_in.email
        hashed_password := get_password_hash salt user_in.password
        full_name := user_in.full_name
        is_active := true, is_admin := false }
    .ok u (store ++ [u])

/-- Embeds `UserService.update_user` (app/services/user.py line 44): fetch by id;
when the payload sets `email` to a value differing from the stored string
(Python `!=`, an exact string comparison), a conflict lookup under the
column collation; an explicit null email compares different from any
stored string but matches no row, and is then skipped by the repository
update loop; a set password is hashed (an explicit null password reaches
`get_password_hash(None)`, an uncaught `TypeError`); finally the
repository update loop skips every null value. -/
def update_user (store : List User) (user_id : Int) (user_in : UserUpdate)
    (salt : Nat) : UserResult :=
  match UserRepository.get_by_id store user_id with
  | none => .notFound (userNotFoundMsg user_id)
  | some user =>
    let conflictHit : Bool :=
      match user_in.email with
      | .set (some e) =>
        e != user.email && (UserRepository.get_by_email store e).isSome
      | _ => false
    if conflictHit then
      .conflict (emailConflictMsg (match user_in.email with
        | .set (some e) => e
        | _ => user.email))
    else
      match user_in.password with
      | .set none => .pythonError
      | _ =>
        let u2 : User :=
          { user with
            email := applyUpd user.email user_in.email
            full_name := applyUpdOpt user.full_name user_in.full_name
            is_active := applyUpd user.is_active user_in.is_active
            hashed_password :=
              match user_in.password with
              | .set (some p) => get_password_hash salt p
              | _ => user.hashed_password }
        .ok u2 (setUser store user_id u2)

/-- Embeds `UserService.update_user_admin` (app/services/user.py line 62): the
same flow over the admin schema, which additionally carries `is_admin`. -/
def update_user_admin (store : List User) (user_id : Int)
    (user_in : UserAdminUpdate) (salt : Nat) : UserResult :=
  match UserRepository.get_by_id store user_id with
  | none => .notFound (userNotFoundMsg user_id)
  | some user =>
    let conflictHit : Bool :=
      match user_in.email with
      | .set (some e) =>
        e != user.email && (UserRepository.get_by_email store e).isSome
      | _ => false
    if conflictHit then
      .conflict (emailConflictMsg (match user_in.email with
        | .set (some e) => e
        | _ => user.email))
    else
      match user_in.password with
      | .set none => .pythonError
      | _ =>
        let u2 : User :=
          { user with
            email := applyUpd user.email user_in.email
            full_name := applyUpdOpt user.full_name user_in.full_name
            is_active := applyUpd user.is_active user_in.is_active
            is_admin := applyUpd user.is_admin user_in.is_admin
            hashed_password :=
              match user_in.password with
              | .set (some p) => get_password_hash salt p
              | _ => user.hashed_password }
        .ok u2 (setUser store user_id u2)

/-- Embeds `UserService.delete_user` (app/services/user.py line 80): fetch by id,
then remove; `ok` carries the removed record and the resulting store. -/
def delete_user (store : List User) (user_id : Int) : UserResult :=
  match UserRepository.get_by_id store user_id with
  | none => .notFound (userNotFoundMsg user_id)
  | some user => .ok user (removeUser store user_id)

end UserService

/-- Embeds `update_current_user_profile` (app/api/v1/users.py line 27): dumps the
set fields of the submitted `UserUpdate`, pops `is_active` whether present
or not, revalidates, and calls `UserService.update_user` with the id of
the authenticated caller. -/
def update_current_user_profile (store : List User) (current_user_id : Int)
    (user_in : UserUpdate) (salt : Nat) : UserResult :=
  UserService.update_user store current_user_id
    { user_in with is_active := .unset } salt

/-- The email uniqueness invariant of the identity store: no two records
share an email under the case-insensitive collation key. -/
def EmailUnique (store : List User) : Prop :=
  store.Pairwise (fun a b => emailKey a.email ≠ emailKey b.email)

/-- A concrete stored record used to evaluate the profile-update endpoint
on an input that tries to clear the active flag. -/
def storedc8 : User :=
  { id := 1, email := "a@x.com", hashed_password := get_password_hash 0 "pw",
    full_name := none, is_active := true, is_admin := true }

/-- The record the profile-update endpoint produces from `storedc8` for a
payload setting the full name and attempting `is_active := false`. -/
def u2c8 : User :=
  { id := 1, email := "a@x.com", hashed_password := get_password_hash 0 "pw",
    full_name := some "N", is_active := true, is_admin := true }

/-- The record registration inserts for email `a@x.com` into an empty
store, used to evaluate the duplicate-registration scenario. -/
def winC7 : User :=
  { id := 1, email := "a@x.com",
    hashed_password := get_password_hash 0 "password123",
    full_name := none, is_active := true, is_admin := false }

/-! ## Helper lemmas -/

theorem story_find_none_iff (stories : List Story) (user_id story_id : Int) :
    StoryRepository.get_by_user_and_id stories user_id story_id = none ↔
      ∀ s ∈ stories, ¬(s.id = story_id ∧ s.user_id = user_id) := by
  simp [StoryRepository.get_by_user_and_id, List.find?_eq_none]

theorem universe_find_none_iff (universes : List StoryUniverse)
    (user_id universe_id : Int) :
    StoryUniverseRepository.get_by_user_and_id universes user_id universe_id
        = none ↔
      ∀ g ∈ universes, ¬(g.id = universe_id ∧ g.user_id = user_id) := by
  simp [StoryUniverseRepository.get_by_user_and_id, List.find?_eq_none]

theorem story_get_notFound_iff (stories : List Story) (user_id story_id : Int) :
    StoryService.get_by_id stories user_id story_id
        = .notFound (storyNotFoundMsg story_id) ↔
      ∀ s ∈ stories, ¬(s.id = story_id ∧ s.user_id = user_id) := by
  rw [← story_find_none_iff]
  cases h : StoryRepository.get_by_user_and_id stories user_id story_id <;>
    simp [StoryService.get_by_id, h]

theorem universe_get_notFound_iff (universes : List StoryUniverse)
    (user_id universe_id : Int) :
    StoryUniverseService.get_by_id universes user_id universe_id
        = .notFound (universeNotFoundMsg universe_id) ↔
      ∀ g ∈ universes, ¬(g.id = universe_id ∧ g.user_id = user_id) := by
  rw [← universe_find_none_iff]
  cases h : StoryUniverseRepository.get_by_user_and_id universes user_id
      universe_id <;>
    simp [StoryUniverseService.get_by_id, h]

/-! ## Claim theorems -/

/-- C4: for every token string, `decode_token` returns the decoded claims
on success and the single opaque sentinel `None` on any failure — bad
signature or malformed input (the `garbage` branch), or an `exp` claim in
the past — and (being a total function into `Option`) never raises past
its boundary; in particular any issued token whose ttl has elapsed decodes
to `None` regardless of signature correctness, the failure reason never
being distinguished to the caller. -/
theorem decode_token_c4 :
    ∀ (now : Int) (p : Payload) (e : Int) (s : String) (sub : SubClaim)
      (iat ttl : Int),
      (p.exp = some e → e < now → decode_token now (.signed p) = none) ∧
      (decode_token now (.garbage s) = none) ∧
      (p.exp = some e → now ≤ e → decode_token now (.signed p) = some p) ∧
      (p.exp = none → decode_token now (.signed p) = some p) ∧
      (iat + ttl < now → decode_token now (create_access_token sub iat ttl) = none) ∧
      (iat + ttl < now → decode_token now (create_refresh_token sub iat ttl) = none) := by
  intro now p e s sub iat ttl
  refine ⟨?_, rfl, ?_, ?_, ?_, ?_⟩
  · intro h1 h2
    simp [decode_token, h1, h2]
  · intro h1 h2
    simp [decode_token, h1, Int.not_lt.mpr h2]
  · intro h1
    simp [decode_token, h1]
  · intro h
    simp [decode_token, create_access_token, h]
  · intro h
    simp [decode_token, create_refresh_token, h]

theorem decode_token_c4_witness :
    (Payload.mk (some (.num 1)) (some "access") (some 5)).exp = some 5 ∧
    (5 : Int) < 7 ∧
    decode_token 7 (.signed (Payload.mk (some (.num 1)) (some "access") (some 5)))
      = none := by
  refine ⟨rfl, by decide, ?_⟩
  exact (decode_token_c4 7 (Payload.mk (some (.num 1)) (some "access") (some 5))
    5 "" (.num 1) 0 0).1 rfl (by decide)

/-- C6: for every password and salts, verification succeeds on the hash of
the password, and two hashing calls drawing distinct salts yield distinct
digests that both verify true (salted hashing). -/
theorem password_hash_c6 :
    ∀ (p : String) (s1 s2 : Nat),
      verify_password p (get_password_hash s1 p) = true ∧
      (s1 ≠ s2 →
        get_password_hash s1 p ≠ get_password_hash s2 p ∧
        verify_password p (get_password_hash s2 p) = true) := by
  intro p s1 s2
  refine ⟨by simp [verify_password, get_password_hash], fun h => ⟨?_, ?_⟩⟩
  · simp [get_password_hash, h]
  · simp [verify_password, get_password_hash]

theorem password_hash_c6_witness :
    verify_password "password123" (get_password_hash 0 "password123") = true ∧
    get_password_hash 0 "password123" ≠ get_password_hash 1 "password123" := by
  have h := password_hash_c6 "password123" 0 1
  exact ⟨h.1, (h.2 (by decide)).1⟩

/-- C3: for every owner id and resource id, the owner-scoped get of each
resource type — and the update and delete operations that reuse it —
raises NotFound exactly when no resource with that id and that owning user
id exists, so a resource owned by another user is indistinguishable from a
non-existent id (one fixed message per id); and creating a Story whose
`story_universe_id` resolves to no universe of the caller fails with
NotFound (the story services have no Forbidden outcome at all). -/
theorem ownership_scope_c3 :
    ∀ (stories : List Story) (universes : List StoryUniverse)
      (user_id story_id universe_id newId : Int) (data : StoryCreate)
      (upd : StoryUpdate),
      (StoryService.get_by_id stories user_id story_id
          = .notFound (storyNotFoundMsg story_id) ↔
        ∀ s ∈ stories, ¬(s.id = story_id ∧ s.user_id = user_id)) ∧
      (StoryUniverseService.get_by_id universes user_id universe_id
          = .notFound (universeNotFoundMsg universe_id) ↔
        ∀ g ∈ universes, ¬(g.id = universe_id ∧ g.user_id = user_id)) ∧
      (StoryService.update stories user_id story_id upd
          = .notFound (storyNotFoundMsg story_id) ↔
        ∀ s ∈ stories, ¬(s.id = story_id ∧ s.user_id = user_id)) ∧
      (StoryService.delete stories user_id story_id
          = .notFound (storyNotFoundMsg story_id) ↔
        ∀ s ∈ stories, ¬(s.id = story_id ∧ s.user_id = user_id)) ∧
      (StoryService.create universes user_id data newId
          = .notFound (universeNotFoundMsg data.story_universe_id) ↔
        ∀ g ∈ universes,
          ¬(g.id = data.story_universe_id ∧ g.user_id = user_id)) := by
  intro stories universes user_id story_id universe_id newId data upd
  refine ⟨story_get_notFound_iff .., universe_get_notFound_iff .., ?_, ?_, ?_⟩
  · rw [← story_get_notFound_iff stories user_id story_id]
    cases h : StoryService.get_by_id stories user_id story_id <;>
      simp [StoryService.update, h]
  · rw [← story_get_notFound_iff stories user_id story_id]
    cases h : StoryService.get_by_id stories user_id story_id <;>
      simp [StoryService.delete, h]
  · rw [← universe_find_none_iff universes user_id data.story_universe_id]
    cases h : StoryUniverseRepository.get_by_user_and_id universes user_id
        data.story_universe_id <;>
      simp [StoryService.create, h]

theorem ownership_scope_c3_witness :
    StoryService.get_by_id
        [{ id := 7, user_id := 2, story_universe_id := 1, title := "t",
           content := none, image_urls := none }] 1 7
      = .notFound (storyNotFoundMsg 7) := by
  refine (ownership_scope_c3
      [{ id := 7, user_id := 2, story_universe_id := 1, title := "t",
         content := none, image_urls := none }] [] 1 7 0 0
      ⟨0, "t", none, none⟩ emptyStoryUpdate).1.mpr ?_
  intro s hs
  simp at hs
  subst hs
  decide

/-- C9: fields omitted from a partial update payload, or carried with the
value None, are left untouched by the story update; the empty payload is a
no-op at both the repository and the service level; no nullable field can
be cleared to null through update; and the fields outside the payload
schema (id, owner, universe) never change. -/
theorem story_update_c9 :
    ∀ (stories : List Story) (user_id story_id : Int) (story : Story)
      (data : StoryUpdate),
      (StoryService.update stories user_id story_id emptyStoryUpdate
        = StoryService.get_by_id stories user_id story_id) ∧
      (StoryRepository.update story emptyStoryUpdate = story) ∧
      ((data.title = .unset ∨ data.title = .set none) →
        (StoryRepository.update story data).title = story.title) ∧
      ((data.content = .unset ∨ data.content = .set none) →
        (StoryRepository.update story data).content = story.content) ∧
      ((data.image_urls = .unset ∨ data.image_urls = .set none) →
        (StoryRepository.update story data).image_urls = story.image_urls) ∧
      ((StoryRepository.update story data).content = none →
        story.content = none) ∧
      ((StoryRepository.update story data).image_urls = none →
        story.image_urls = none) ∧
      ((StoryRepository.update story data).id = story.id ∧
        (StoryRepository.update story data).user_id = story.user_id ∧
        (StoryRepository.update story data).story_universe_id
          = story.story_universe_id) := by
  intro stories user_id story_id story data
  have hempty : ∀ st : Story, StoryRepository.update st emptyStoryUpdate = st :=
    fun _ => rfl
  refine ⟨?_, hempty story, ?_, ?_, ?_, ?_, ?_, by simp [StoryRepository.update]⟩
  · cases h : StoryService.get_by_id stories user_id story_id <;>
      simp [StoryService.update, h, hempty]
  · rintro (h | h) <;> simp [StoryRepository.update, h, applyUpd]
  · rintro (h | h) <;> simp [StoryRepository.update, h, applyUpdOpt]
  · rintro (h | h) <;> simp [StoryRepository.update, h, applyUpdOpt]
  · cases h : data.content with
    | unset => simp [StoryRepository.update, h, applyUpdOpt]
    | set v =>
      cases v with
      | none => simp [StoryRepository.update, h, applyUpdOpt]
      | some w => simp [StoryRepository.update, h, applyUpdOpt]
  · cases h : data.image_urls with
    | unset => simp [StoryRepository.update, h, applyUpdOpt]
    | set v =>
      cases v with
      | none => simp [StoryRepository.update, h, applyUpdOpt]
      | some w => simp [StoryRepository.update, h, applyUpdOpt]

theorem story_update_c9_witness :
    StoryRepository.update
        { id := 1, user_id := 1, story_universe_id := 1, title := "t",
          content := some "c", image_urls := none }
        { title := .unset, content := .set none, image_urls := .unset }
      = { id := 1, user_id := 1, story_universe_id := 1, title := "t",
          content := some "c", image_urls := none } := by
  have h := story_update_c9 [] 1 1
    { id := 1, user_id := 1, story_universe_id := 1, title := "t",
      content := some "c", image_urls := none }
    { title := .unset, content := .set none, image_urls := .unset }
  have ht := h.2.2.1 (Or.inl rfl)
  have hc := h.2.2.2.1 (Or.inr rfl)
  have hi := h.2.2.2.2.1 (Or.inl rfl)
  have hrest := h.2.2.2.2.2.2.2
  cases hu : StoryRepository.update
      { id := 1, user_id := 1, story_universe_id := 1, title := "t",
        content := some "c", image_urls := none }
      { title := .unset, content := .set none, image_urls := .unset }
  simp_all

/-- C2: the Authorization Gate applies its checks in order with a hard
stop at the first failure — missing bearer token, failed decode, non-access
type claim, missing or unresolvable subject: Unauthorized; inactive user:
Unauthorized "Inactive user"; on the admin tier an active non-admin user:
Forbidden "Admin privileges required"; and every Unauthorized outcome of
the base tier propagates unchanged through the admin tier, so an admin
endpoint called with no token (or a bad one) answers Unauthorized, never
Forbidden. -/
theorem gate_chain_c2 :
    ∀ (store : List User) (now : Int) (t : TokenStr) (p : Payload) (i : Int)
      (u : User),
      (get_current_user store now none = .unauthorized "Not authenticated") ∧
      (get_current_admin_user store now none
        = .unauthorized "Not authenticated") ∧
      (decode_token now t = none →
        get_current_user store now (some t)
          = .unauthorized "Could not validate credentials") ∧
      (decode_token now t = some p → p.type ≠ some "access" →
        get_current_user store now (some t)
          = .unauthorized "Could not validate credentials") ∧
      (decode_token now t = some p → p.type = some "access" → p.sub = none →
        get_current_user store now (some t)
          = .unauthorized "Could not validate credentials") ∧
      (decode_token now t = some p → p.type = some "access" →
        p.sub = some (.num i) → UserRepository.get_by_id store i = none →
        get_current_user store now (some t)
          = .unauthorized "Could not validate credentials") ∧
      (decode_token now t = some p → p.type = some "access" →
        p.sub = some (.num i) → UserRepository.get_by_id store i = some u →
        get_current_user store now (some t) = .ok u ∧
        (u.is_active = false →
          get_current_active_user store now (some t)
              = .unauthorized "Inactive user" ∧
          get_current_admin_user store now (some t)
              = .unauthorized "Inactive user") ∧
        (u.is_active = true → u.is_admin = false →
          get_current_active_user store now (some t) = .ok u ∧
          get_current_admin_user store now (some t)
            = .forbidden "Admin privileges required") ∧
        (u.is_active = true → u.is_admin = true →
          get_current_admin_user store now (some t) = .ok u)) ∧
      (∀ msg, get_current_user store now (some t) = .unauthorized msg →
        get_current_admin_user store now (some t) = .unauthorized msg) := by
  intro store now t p i u
  refine ⟨rfl, rfl, ?_, ?_, ?_, ?_, ?_, ?_⟩
  · intro h
    simp [get_current_user, h]
  · intro h ht
    simp [get_current_user, h, ht]
  · intro h ht hs
    simp [get_current_user, h, ht, hs]
  · intro h ht hs hu
    simp [get_current_user, h, ht, hs, pyInt, hu]
  · intro h ht hs hu
    have hcu : get_current_user store now (some t) = .ok u := by
      simp [get_current_user, h, ht, hs, pyInt, hu]
    refine ⟨hcu, ?_, ?_, ?_⟩
    · intro ha
      constructor <;>
        simp [get_current_admin_user, get_current_active_user, hcu, ha]
    · intro ha hm
      constructor <;>
        simp [get_current_admin_user, get_current_active_user, hcu, ha, hm]
    · intro ha hm
      simp [get_current_admin_user, get_current_active_user, hcu, ha, hm]
  · intro msg h
    simp [get_current_admin_user, get_current_active_user, h]

theorem gate_chain_c2_witness :
    get_current_admin_user
        [{ id := 1, email := "a@x.com",
           hashed_password := get_password_hash 0 "password123",
           full_name := none, is_active := true, is_admin := false }] 0
        (some (create_access_token (.num 1) 0 100))
      = .forbidden "Admin privileges required" := by
  have h := gate_chain_c2
    [{ id := 1, email := "a@x.com",
       hashed_password := get_password_hash 0 "password123",
       full_name := none, is_active := true, is_admin := false }] 0
    (create_access_token (.num 1) 0 100)
    { sub := some (.num 1), type := some "access", exp := some 100 } 1
    { id := 1, email := "a@x.com",
      hashed_password := get_password_hash 0 "password123",
      full_name := none, is_active := true, is_admin := false }
  exact ((h.2.2.2.2.2.2.1 rfl rfl rfl rfl).2.2.1 rfl rfl).2

/-- C10: a bearer token that decodes with type access but whose subject
string is not Python-int-parseable, or names no user, is converted by the
catch-all handler of `get_current_user` into the generic Unauthorized
credentials failure; no exception escapes the gate. -/
theorem deps_catch_c10 :
    ∀ (store : List User) (now : Int) (t : TokenStr) (p : Payload),
      decode_token now t = some p →
      p.type = some "access" →
      ((∃ s, p.sub = some (.nonNum s)) ∨
        (∃ i, p.sub = some (.num i) ∧ UserRepository.get_by_id store i = none)) →
      get_current_user store now (some t)
        = .unauthorized "Could not validate credentials" := by
  intro store now t p h ht hcase
  rcases hcase with ⟨s, hs⟩ | ⟨i, hs, hu⟩
  · simp [get_current_user, h, ht, hs, pyInt]
  · simp [get_current_user, h, ht, hs, pyInt, hu]

theorem deps_catch_c10_witness :
    get_current_user [] 0
        (some (.signed { sub := some (.nonNum "abc"), type := some "access",
                         exp := some 100 }))
      = .unauthorized "Could not validate credentials" := by
  exact deps_catch_c10 [] 0
    (.signed { sub := some (.nonNum "abc"), type := some "access",
               exp := some 100 })
    { sub := some (.nonNum "abc"), type := some "access", exp := some 100 }
    rfl rfl (Or.inl ⟨"abc", rfl⟩)

/-- C1 counterexample: the claim that no input makes refresh fail in any
way other than a tagged Unauthorized/BadRequest failure is false — a token
carrying a valid signature over a refresh-typed payload whose subject
string is not decimal (here "abc") reaches `int(user_id)` at
app/services/auth.py line 49 outside any handler, and the `ValueError`
escapes untagged. -/
theorem refresh_c1_counterexample :
    AuthService.refresh_access_token [] 0 1 1
        (.signed { sub := some (.nonNum "abc"), type := some "refresh",
                   exp := some 100 })
      = .pythonError ∧
    (∀ msg, AuthService.RefreshResult.pythonError ≠ .unauthorized msg) ∧
    (∀ msg, AuthService.RefreshResult.pythonError ≠ .badRequest msg) ∧
    (∀ t, AuthService.RefreshResult.pythonError ≠ .ok t) := by
  refine ⟨rfl, ?_, ?_, ?_⟩ <;> intro x h <;> cases h

/-- C1 amended: for every string presented to `refresh_access_token` —
failed verification gives Unauthorized; a verified non-refresh type claim
gives BadRequest; a verified refresh-typed token with a missing subject,
an unresolvable subject, or an inactive subject gives Unauthorized; a
verified refresh-typed token whose subject resolves to an active user
returns a freshly issued pair; and the sole remaining failure mode is a
verified refresh-typed token whose subject string is not int-parseable
(never issued by this system, whose tokens carry `str(user.id)`), where an
untagged ValueError escapes instead of a tagged failure. -/
theorem refresh_c1_amended :
    ∀ (store : List User) (now accessTtl refreshTtl : Int) (tok : TokenStr)
      (p : Payload) (i : Int) (s : String) (u : User),
      (decode_token now tok = none →
        AuthService.refresh_access_token store now accessTtl refreshTtl tok
          = .unauthorized "Invalid refresh token") ∧
      (decode_token now tok = some p → p.type ≠ some "refresh" →
        AuthService.refresh_access_token store now accessTtl refreshTtl tok
          = .badRequest "Invalid token type") ∧
      (decode_token now tok = some p → p.type = some "refresh" →
        p.sub = none →
        AuthService.refresh_access_token store now accessTtl refreshTtl tok
          = .unauthorized "Invalid refresh token") ∧
      (decode_token now tok = some p → p.type = some "refresh" →
        p.sub = some (.num i) → UserRepository.get_by_id store i = none →
        AuthService.refresh_access_token store now accessTtl refreshTtl tok
          = .unauthorized "User not found") ∧
      (decode_token now tok = some p → p.type = some "refresh" →
        p.sub = some (.num i) → UserRepository.get_by_id store i = some u →
        u.is_active = false →
        AuthService.refresh_access_token store now accessTtl refreshTtl tok
          = .unauthorized "User is inactive") ∧
      (decode_token now tok = some p → p.type = some "refresh" →
        p.sub = some (.num i) → UserRepository.get_by_id store i = some u →
        u.is_active = true →
        AuthService.refresh_access_token store now accessTtl refreshTtl tok
          = .ok (AuthService.create_tokens u now accessTtl refreshTtl)) ∧
      (decode_token now tok = some p → p.type = some "refresh" →
        p.sub = some (.nonNum s) →
        AuthService.refresh_access_token store now accessTtl refreshTtl tok
          = .pythonError) := by
  intro store now accessTtl refreshTtl tok p i s u
  refine ⟨?_, ?_, ?_, ?_, ?_, ?_, ?_⟩
  · intro h
    simp [AuthService.refresh_access_token, h]
  · intro h ht
    simp [AuthService.refresh_access_token, h, ht]
  · intro h ht hs
    simp [AuthService.refresh_access_token, h, ht, hs]
  · intro h ht hs hu
    simp [AuthService.refresh_access_token, h, ht, hs, pyInt, hu]
  · intro h ht hs hu ha
    simp [AuthService.refresh_access_token, h, ht, hs, pyInt, hu, ha]
  · intro h ht hs hu ha
    simp [AuthService.refresh_access_token, h, ht, hs, pyInt, hu, ha]
  · intro h ht hs
    simp [AuthService.refresh_access_token, h, ht, hs, pyInt]

theorem refresh_c1_witness :
    AuthService.refresh_access_token
        [{ id := 1, email := "a@x.com",
           hashed_password := get_password_hash 0 "password123",
           full_name := none, is_active := true, is_admin := false }]
        0 1 2 (create_access_token (.num 1) 0 100)
      = .badRequest "Invalid token type" := by
  exact (refresh_c1_amended
    [{ id := 1, email := "a@x.com",
       hashed_password := get_password_hash 0 "password123",
       full_name := none, is_active := true, is_admin := false }]
    0 1 2 (create_access_token (.num 1) 0 100)
    { sub := some (.num 1), type := some "access", exp := some 100 } 1 ""
    { id := 1, email := "a@x.com",
      hashed_password := get_password_hash 0 "password123",
      full_name := none, is_active := true, is_admin := false }).2.1
    rfl (by decide)

/-- C8: whatever payload the self-service profile endpoint accepts — even
one carrying an `is_active` field — a successful update leaves the stored
active and admin flags (and the id) of the caller unchanged; only email,
full name and password pass through to the record. -/
theorem profile_update_c8 :
    ∀ (store : List User) (user_id : Int) (user_in : UserUpdate) (salt : Nat)
      (u2 : User) (st2 : List User) (stored : User),
      UserRepository.get_by_id store user_id = some stored →
      update_current_user_profile store user_id user_in salt = .ok u2 st2 →
      u2.is_active = stored.is_active ∧ u2.is_admin = stored.is_admin ∧
      u2.id = stored.id := by
  intro store user_id user_in salt u2 st2 stored hget hok
  simp only [update_current_user_profile, UserService.update_user, hget] at hok
  split at hok
  · simp at hok
  · split at hok
    · simp at hok
    · simp only [UserResult.ok.injEq] at hok
      obtain ⟨h1, h2⟩ := hok
      rw [← h1]
      simp [applyUpd]

theorem profile_update_c8_witness :
    u2c8.is_active = true ∧ u2c8.is_admin = true ∧ u2c8.id = 1 := by
  refine profile_update_c8 [storedc8] 1
    { email := .unset, password := .unset, full_name := .set (some "N"),
      is_active := .set (some false) } 0 u2c8 [u2c8] storedc8 rfl rfl

theorem get_by_email_none_iff (store : List User) (e : String) :
    UserRepository.get_by_email store e = none ↔
      ∀ v ∈ store, emailKey v.email ≠ emailKey e := by
  simp [UserRepository.get_by_email, List.find?_eq_none]

theorem get_by_email_isSome_iff (store : List User) (e : String) :
    (UserRepository.get_by_email store e).isSome = true ↔
      ∃ v ∈ store, emailKey v.email = emailKey e := by
  simp [UserRepository.get_by_email, List.find?_isSome]

theorem mem_setUser {store : List User} {user_id : Int} {u2 w : User}
    (h : w ∈ setUser store user_id u2) : w = u2 ∨ w ∈ store := by
  induction store with
  | nil => simp [setUser] at h
  | cons v rest ih =>
    by_cases hv : (v.id == user_id) = true
    · rw [setUser, if_pos hv] at h
      rcases List.mem_cons.mp h with h | h
      · exact Or.inl h
      · exact Or.inr (List.mem_cons_of_mem _ h)
    · rw [setUser, if_neg hv] at h
      rcases List.mem_cons.mp h with h | h
      · exact Or.inr (by simp [h])
      · rcases ih h with h | h
        · exact Or.inl h
        · exact Or.inr (List.mem_cons_of_mem _ h)

theorem setUser_pairwise {store : List User} {user_id : Int} {u2 : User}
    (hp : EmailUnique store)
    (hcase : (∀ v ∈ store, emailKey v.email ≠ emailKey u2.email) ∨
      (∃ user, UserRepository.get_by_id store user_id = some user ∧
        emailKey u2.email = emailKey user.email)) :
    EmailUnique (setUser store user_id u2) := by
  induction store with
  | nil => exact hp
  | cons v rest ih =>
    rw [EmailUnique, List.pairwise_cons] at hp
    obtain ⟨hv, hrest⟩ := hp
    by_cases hb : (v.id == user_id) = true
    · have hgoal : setUser (v :: rest) user_id u2 = u2 :: rest := by
        rw [setUser, if_pos hb]
      have hfound : UserRepository.get_by_id (v :: rest) user_id = some v :=
        List.find?_cons_of_pos _ hb
      rw [hgoal, EmailUnique, List.pairwise_cons]
      refine ⟨?_, hrest⟩
      intro w hw
      rcases hcase with hall | ⟨user, hu, hk⟩
      · exact (hall w (List.mem_cons_of_mem _ hw)).symm
      · have huv : user = v := by
          rw [hfound] at hu
          exact (Option.some_inj.mp hu).symm
        rw [hk, huv]
        exact hv w hw
    · have hgoal : setUser (v :: rest) user_id u2
          = v :: setUser rest user_id u2 := by
        rw [setUser, if_neg hb]
      have hid : UserRepository.get_by_id (v :: rest) user_id
          = UserRepository.get_by_id rest user_id :=
        List.find?_cons_of_neg _ hb
      rw [hgoal, EmailUnique, List.pairwise_cons]
      constructor
      · intro w hw
        rcases mem_setUser hw with rfl | hw2
        · rcases hcase with hall | ⟨user, hu, hk⟩
          · exact hall v (List.mem_cons_self ..)
          · rw [hid] at hu
            have hmem := List.mem_of_find?_eq_some hu
            rw [hk]
            exact hv user hmem
        · exact hv w hw2
      · apply ih hrest
        rcases hcase with hall | ⟨user, hu, hk⟩
        · exact Or.inl fun w hw => hall w (List.mem_cons_of_mem _ hw)
        · rw [hid] at hu
          exact Or.inr ⟨user, hu, hk⟩

theorem removeUser_sublist (store : List User) (user_id : Int) :
    List.Sublist (removeUser store user_id) store := by
  induction store with
  | nil => simp [removeUser]
  | cons v rest ih =>
    by_cases hb : (v.id == user_id) = true
    · rw [removeUser, if_pos hb]
      exact List.Sublist.cons v (List.Sublist.refl rest)
    · rw [removeUser, if_neg hb]
      exact List.Sublist.cons₂ v ih

theorem create_user_preserves_unique {store : List User}
    {user_in : UserCreate} {salt : Nat} {newId : Int} {u : User}
    {st2 : List User} (hp : EmailUnique store)
    (hok : UserService.create_user store user_in salt newId = .ok u st2) :
    EmailUnique st2 := by
  by_cases hs : (UserRepository.get_by_email store user_in.email).isSome = true
  · simp [UserService.create_user, hs] at hok
  · have hnone : UserRepository.get_by_email store user_in.email = none := by
      cases h : UserRepository.get_by_email store user_in.email
      · rfl
      · rw [h] at hs
        simp at hs
    rw [UserService.create_user, if_neg (by simp [hnone])] at hok
    simp only [UserResult.ok.injEq] at hok
    obtain ⟨h1, h2⟩ := hok
    rw [← h2, EmailUnique, List.pairwise_append]
    refine ⟨hp, by simp, ?_⟩
    intro a ha b hb
    simp only [List.mem_singleton] at hb
    subst hb
    exact (get_by_email_none_iff store user_in.email).mp hnone a ha

theorem create_user_conflict_iff (store : List User) (user_in : UserCreate)
    (salt : Nat) (newId : Int) :
    UserService.create_user store user_in salt newId
        = .conflict (emailConflictMsg user_in.email) ↔
      ∃ v ∈ store, emailKey v.email = emailKey user_in.email := by
  rw [← get_by_email_isSome_iff]
  by_cases hs : (UserRepository.get_by_email store user_in.email).isSome = true
  · simp [UserService.create_user, hs]
  · rw [UserService.create_user, if_neg hs]
    constructor
    · intro h
      simp at h
    · intro h
      exact absurd h hs

theorem update_user_preserves_unique {store : List User} {user_id : Int}
    {user_in : UserUpdate} {salt : Nat} {u2 : User} {st2 : List User}
    (hp : EmailUnique store)
    (hok : UserService.update_user store user_id user_in salt = .ok u2 st2) :
    EmailUnique st2 := by
  cases hget : UserRepository.get_by_id store user_id with
  | none => simp [UserService.update_user, hget] at hok
  | some user =>
    simp only [UserService.update_user, hget] at hok
    split at hok
    · simp at hok
    · rename_i hc
      split at hok
      · simp at hok
      · simp only [UserResult.ok.injEq] at hok
        obtain ⟨h1, h2⟩ := hok
        rw [← h2]
        apply setUser_pairwise hp
        cases he : user_in.email with
        | unset =>
          refine Or.inr ⟨user, hget, ?_⟩
          simp [applyUpd]
        | set v =>
          cases v with
          | none =>
            refine Or.inr ⟨user, hget, ?_⟩
            simp [applyUpd]
          | some e =>
            rw [he] at hc
            by_cases heq : e = user.email
            · refine Or.inr ⟨user, hget, ?_⟩
              simp [applyUpd, heq]
            · have hns : UserRepository.get_by_email store e = none := by
                cases hx : UserRepository.get_by_email store e
                · rfl
                · exfalso
                  apply hc
                  simp [bne_iff_ne, heq, hx]
              refine Or.inl fun v hv => ?_
              have hne := (get_by_email_none_iff store e).mp hns v hv
              simpa [applyUpd] using hne

theorem update_admin_preserves_unique {store : List User} {user_id : Int}
    {user_in : UserAdminUpdate} {salt : Nat} {u2 : User} {st2 : List User}
    (hp : EmailUnique store)
    (hok : UserService.update_user_admin store user_id user_in salt
      = .ok u2 st2) :
    EmailUnique st2 := by
  cases hget : UserRepository.get_by_id store user_id with
  | none => simp [UserService.update_user_admin, hget] at hok
  | some user =>
    simp only [UserService.update_user_admin, hget] at hok
    split at hok
    · simp at hok
    · rename_i hc
      split at hok
      · simp at hok
      · simp only [UserResult.ok.injEq] at hok
        obtain ⟨h1, h2⟩ := hok
        rw [← h2]
        apply setUser_pairwise hp
        cases he : user_in.email with
        | unset =>
          refine Or.inr ⟨user, hget, ?_⟩
          simp [applyUpd]
        | set v =>
          cases v with
          | none =>
            refine Or.inr ⟨user, hget, ?_⟩
            simp [applyUpd]
          | some e =>
            rw [he] at hc
            by_cases heq : e = user.email
            · refine Or.inr ⟨user, hget, ?_⟩
              simp [applyUpd, heq]
            · have hns : UserRepository.get_by_email store e = none := by
                cases hx : UserRepository.get_by_email store e
                · rfl
                · exfalso
                  apply hc
                  simp [bne_iff_ne, heq, hx]
              refine Or.inl fun v hv => ?_
              have hne := (get_by_email_none_iff store e).mp hns v hv
              simpa [applyUpd] using hne

theorem delete_user_preserves_unique {store : List User} {user_id : Int}
    {u : User} {st2 : List User} (hp : EmailUnique store)
    (hok : UserService.delete_user store user_id = .ok u st2) :
    EmailUnique st2 := by
  cases hget : UserRepository.get_by_id store user_id with
  | none => simp [UserService.delete_user, hget] at hok
  | some user =>
    simp only [UserService.delete_user, hget, UserResult.ok.injEq] at hok
    obtain ⟨h1, h2⟩ := hok
    rw [← h2]
    exact List.Pairwise.sublist (removeUser_sublist store user_id) hp

/-- C7: starting from any store in which no two records share an email
under the case-insensitive key, `create_user` answers Conflict exactly when
a record with the submitted email is already registered, `update_user` and
`update_user_admin` answer Conflict on an email-changing update to an
already-registered email, and every store produced by a successful create,
update, admin update or delete still satisfies the uniqueness invariant. -/
theorem email_unique_c7 :
    ∀ (store : List User), EmailUnique store →
      (∀ (user_in : UserCreate) (salt : Nat) (newId : Int) (u : User)
          (st2 : List User),
        UserService.create_user store user_in salt newId = .ok u st2 →
        EmailUnique st2) ∧
      (∀ (user_in : UserCreate) (salt : Nat) (newId : Int),
        UserService.create_user store user_in salt newId
            = .conflict (emailConflictMsg user_in.email) ↔
          ∃ v ∈ store, emailKey v.email = emailKey user_in.email) ∧
      (∀ (user_id : Int) (user_in : UserUpdate) (salt : Nat) (u : User)
          (st2 : List User),
        UserService.update_user store user_id user_in salt = .ok u st2 →
        EmailUnique st2) ∧
      (∀ (user_id : Int) (user_in : UserAdminUpdate) (salt : Nat) (u : User)
          (st2 : List User),
        UserService.update_user_admin store user_id user_in salt = .ok u st2 →
        EmailUnique st2) ∧
      (∀ (user_id : Int) (user_in : UserUpdate) (salt : Nat) (e : String)
          (stored : User),
        UserRepository.get_by_id store user_id = some stored →
        user_in.email = .set (some e) →
        e ≠ stored.email →
        (∃ v ∈ store, emailKey v.email = emailKey e) →
        UserService.update_user store user_id user_in salt
          = .conflict (emailConflictMsg e)) ∧
      (∀ (user_id : Int) (u : User) (st2 : List User),
        UserService.delete_user store user_id = .ok u st2 →
        EmailUnique st2) := by
  intro store hp
  refine ⟨fun _ _ _ _ _ h => create_user_preserves_unique hp h,
    fun user_in salt newId => create_user_conflict_iff store user_in salt newId,
    fun _ _ _ _ _ h => update_user_preserves_unique hp h,
    fun _ _ _ _ _ h => update_admin_preserves_unique hp h,
    ?_,
    fun _ _ _ h => delete_user_preserves_unique hp h⟩
  intro user_id user_in salt e stored hget he hne hex
  have hs : (UserRepository.get_by_email store e).isSome = true :=
    (get_by_email_isSome_iff store e).mpr hex
  rw [UserService.update_user, hget]
  simp only [he]
  rw [if_pos (by simp [bne_iff_ne, hne, hs])]

theorem email_unique_c7_witness :
    EmailUnique [winC7] ∧
    UserService.create_user [winC7] ⟨"A@x.com", "password123", none⟩ 1 2
      = .conflict (emailConflictMsg "A@x.com") := by
  have h := email_unique_c7 [] (List.Pairwise.nil)
  have h1 : EmailUnique [winC7] :=
    h.1 ⟨"a@x.com", "password123", none⟩ 0 1 winC7 [winC7] rfl
  have h2 := email_unique_c7 [winC7] h1
  refine ⟨h1, (h2.2.1 ⟨"A@x.com", "password123", none⟩ 1 2).mpr ?_⟩
  exact ⟨winC7, by simp, by decide⟩

end App
